import Mathlib

/- Shallow embedding of the per-frame simulation of src/src/sdl3-demo.cpp
   (the latest evolutionary version contained in that file, the one with the
   bullet subsystem) together with the GameObject record of
   src/src/gameobject.h.  Machine floats are modelled as rationals.  SDL3
   float-rectangle intersection is embedded with SDL3 semantics: a float
   rectangle is empty only when one of its dimensions is negative, so
   edge-touching rectangles do intersect. -/

namespace Demo

/-- Two-dimensional vector of rationals (stands for glm vec2 of floats). -/
structure Vec2 where
  x : ℚ
  y : ℚ
  deriving DecidableEq, Repr

/-- Axis-aligned rectangle (stands for SDL FRect). -/
structure FRect where
  x : ℚ
  y : ℚ
  w : ℚ
  h : ℚ
  deriving DecidableEq, Repr

/-- Object type tag (gameobject.h, extended with bullet as used by the cpp). -/
inductive ObjectType
  | player
  | level
  | enemy
  | bullet
  deriving DecidableEq, Repr

/-- Player character state machine states (gameobject.h). -/
inductive PlayerState
  | idle
  | running
  | jumping
  deriving DecidableEq, Repr

/-- Bullet states as used by sdl3-demo.cpp (the enum itself lives in the newer
    gameobject.h which is not under src/; the three values and their roles are
    fixed by the cpp usage and the spec). -/
inductive BulletState
  | moving
  | colliding
  | inactive
  deriving DecidableEq, Repr

/-- Modelled from the spec: the Timer (weapon cooldown) type of the newer
    gameobject.h is not under src/.  The spec says: elapsed counts up against
    a fixed timeout; isTimeout is true when elapsed has reached the timeout;
    reset zeroes elapsed. -/
structure Timer where
  timeout : ℚ
  elapsed : ℚ
  deriving DecidableEq, Repr

def Timer.step (t : Timer) (dt : ℚ) : Timer :=
  { t with elapsed := t.elapsed + dt }

def Timer.isTimeout (t : Timer) : Bool :=
  decide (t.timeout ≤ t.elapsed)

def Timer.reset (t : Timer) : Timer :=
  { t with elapsed := 0 }

/-- Modelled from the spec: animation.h is not under src/.  The spec fixes a
    frame count, a duration, and an accumulating elapsed time; step adds dt
    and isDone reports that a non-looping clip has reached its end.  No claim
    depends on the internal formula of isDone, only on its use as a gate. -/
structure Animation where
  numFrames : ℕ
  length : ℚ
  elapsed : ℚ
  deriving DecidableEq, Repr

def Animation.step (a : Animation) (dt : ℚ) : Animation :=
  { a with elapsed := a.elapsed + dt }

def Animation.isDone (a : Animation) : Bool :=
  decide (a.length ≤ a.elapsed)

/-- Tagged union ObjectData of gameobject.h, embedded as a sum.  The player
    arm carries the state-machine state and the weapon cooldown timer, the
    bullet arm carries the bullet state (field layout per the cpp usage and
    the spec data model). -/
inductive ObjectData
  | player (state : PlayerState) (weaponTimer : Timer)
  | level
  | enemy
  | bullet (state : BulletState)
  deriving DecidableEq, Repr

/-- Texture handle: an identity plus the pixel dimensions the cpp reads
    (texture width and height are used for bullet colliders). -/
structure Texture where
  id : ℕ
  w : ℚ
  h : ℚ
  deriving DecidableEq, Repr

/-- The universal entity record GameObject of gameobject.h.  The texture
    pointer is an Option (nullptr becomes none). -/
structure GameObject where
  type : ObjectType
  data : ObjectData
  position : Vec2
  velocity : Vec2
  acceleration : Vec2
  direction : ℚ
  maxSpeedX : ℚ
  animations : List Animation
  currentAnimation : Int
  texture : Option Texture
  dynamic : Bool
  grounded : Bool
  collider : FRect
  deriving DecidableEq, Repr

/-- Default constructor GameObject::GameObject of gameobject.h lines 51-61:
    level type, level data arm, direction 1, maxSpeedX 0, zero kinematics,
    no animation, null texture, not dynamic, not grounded, zero collider. -/
def GameObject.init : GameObject :=
  { type := ObjectType.level
    data := ObjectData.level
    position := Vec2.mk 0 0
    velocity := Vec2.mk 0 0
    acceleration := Vec2.mk 0 0
    direction := 1
    maxSpeedX := 0
    animations := []
    currentAnimation := -1
    texture := none
    dynamic := false
    grounded := false
    collider := FRect.mk 0 0 0 0 }

/-- Animation index constants of the Resources struct in sdl3-demo.cpp. -/
def ANIM_PLAYER_IDLE : Int := 0

def ANIM_PLAYER_RUN : Int := 1

def ANIM_PLAYER_SLIDE : Int := 2

def ANIM_PLAYER_SHOOT : Int := 3

def ANIM_PLAYER_SLIDE_SHOOT : Int := 4

def ANIM_BULLET_MOVING : Int := 0

def ANIM_BULLET_HIT : Int := 1

/-- Tile size constant of sdl3-demo.cpp. -/
def TILE_SIZE : ℚ := 32

/-- The texture and animation resources the update step reads. -/
structure Resources where
  texIdle : Texture
  texRun : Texture
  texSlide : Texture
  texBrick : Texture
  texGrass : Texture
  texGround : Texture
  texPanel : Texture
  texBullet : Texture
  texBulletHit : Texture
  texShoot : Texture
  texRunShoot : Texture
  texSlideShoot : Texture
  playerAnims : List Animation
  bulletAnims : List Animation
  deriving DecidableEq, Repr

/-- Per-frame inputs of the update step that come from outside the entity:
    held keys, logical screen size, camera viewport, the SDL_rand(40) draw
    used for bullet spawn, and the direction of the player entry of the
    character layer (read by the bullet spawn code). -/
structure Env where
  keyA : Bool
  keyD : Bool
  keyJ : Bool
  logW : ℚ
  logH : ℚ
  viewport : FRect
  rand : ℚ
  playerDirection : ℚ
  deriving DecidableEq, Repr

/-- Scancodes handleKeyInput distinguishes. -/
inductive Scancode
  | scanA
  | scanD
  | scanJ
  | scanK
  | other
  deriving DecidableEq, Repr

/-- Reading of the player union arm.  The C++ code only reads it under the
    type invariant; the default on a mismatched arm is idle. -/
def playerStateOf (obj : GameObject) : PlayerState :=
  match obj.data with
  | ObjectData.player s _ => s
  | _ => PlayerState.idle

/-- Write of obj.data.player.state: keeps the weapon timer; on a mismatched
    arm (undefined behaviour in the C++) the data is left unchanged. -/
def setPlayerState (obj : GameObject) (s : PlayerState) : GameObject :=
  match obj.data with
  | ObjectData.player _ t => { obj with data := ObjectData.player s t }
  | _ => obj

/-- Reading of the bullet union arm; default inactive on a mismatched arm. -/
def bulletStateOf (obj : GameObject) : BulletState :=
  match obj.data with
  | ObjectData.bullet s => s
  | _ => BulletState.inactive

/-- Write of obj.data.bullet.state (the bullet arm holds nothing else). -/
def setBulletState (obj : GameObject) (s : BulletState) : GameObject :=
  { obj with data := ObjectData.bullet s }

def stepWeaponTimer (obj : GameObject) (dt : ℚ) : GameObject :=
  match obj.data with
  | ObjectData.player s t => { obj with data := ObjectData.player s (t.step dt) }
  | _ => obj

def weaponTimerOf (obj : GameObject) : Timer :=
  match obj.data with
  | ObjectData.player _ t => t
  | _ => Timer.mk 0 0

def resetWeaponTimer (obj : GameObject) : GameObject :=
  match obj.data with
  | ObjectData.player s t => { obj with data := ObjectData.player s t.reset }
  | _ => obj

/-- SDL3 float-rect emptiness: a float rect is empty only when a dimension is
    negative (SDL_RectEmptyFloat). -/
def FRect.isEmptyRect (r : FRect) : Bool :=
  decide (r.w < 0) || decide (r.h < 0)

/-- SDL_GetRectIntersectionFloat of SDL3: none when either input is empty or
    the clipped rectangle is empty, otherwise the clipped rectangle. -/
def getRectIntersection (a b : FRect) : Option FRect :=
  if a.isEmptyRect || b.isEmptyRect then none
  else
    let x := max a.x b.x
    let w := min (a.x + a.w) (b.x + b.w) - x
    let y := max a.y b.y
    let h := min (a.y + a.h) (b.y + b.h) - y
    let r := FRect.mk x y w h
    if r.isEmptyRect then none else some r

/-- World-space collider rectangle of an object (position plus collider
    offset and size), as built in checkCollisions. -/
def objRect (o : GameObject) : FRect :=
  FRect.mk (o.position.x + o.collider.x) (o.position.y + o.collider.y)
    o.collider.w o.collider.h

/-- The 1-pixel-tall grounded sensor rectangle built in update: same x extent
    as the collider, starting exactly at the collider bottom edge. -/
def sensorRect (obj : GameObject) : FRect :=
  FRect.mk (obj.position.x + obj.collider.x)
    (obj.position.y + obj.collider.y + obj.collider.h)
    obj.collider.w 1

/-- Gravity, the first statement of update (sdl3-demo.cpp lines 960-964):
    when dynamic and not grounded, velocity gains (0, 500) * dt; otherwise the
    object is untouched.  This stage runs before everything else in update,
    in particular before any collision response. -/
def applyGravity (obj : GameObject) (dt : ℚ) : GameObject :=
  if obj.dynamic = true ∧ obj.grounded = false then
    { obj with velocity := Vec2.mk (obj.velocity.x + 0 * dt) (obj.velocity.y + 500 * dt) }
  else obj

/-- Current input direction scalar of update: initialised to 0, decremented
    for a held A and incremented for a held D, but only for player objects
    (the key reads sit inside the player branch). -/
def currentDirectionOf (env : Env) (obj : GameObject) : ℚ :=
  if obj.type = ObjectType.player then
    (if env.keyA then -1 else 0) + (if env.keyD then 1 else 0)
  else 0

/-- Deceleration branch of the idle state (update, lines 1059-1072): with a
    nonzero horizontal velocity, an amount of 1.5 times acceleration.x times
    dt directed against the velocity is added, except that when the remaining
    speed is smaller than the amount the velocity is set exactly to zero. -/
def decelerate (obj : GameObject) (dt : ℚ) : GameObject :=
  if obj.velocity.x ≠ 0 then
    let factor : ℚ := if obj.velocity.x > 0 then -(3/2) else 3/2
    let amount := factor * obj.acceleration.x * dt
    if |obj.velocity.x| < |amount| then
      { obj with velocity := Vec2.mk 0 obj.velocity.y }
    else
      { obj with velocity := Vec2.mk (obj.velocity.x + amount) obj.velocity.y }
  else obj

/-- Bullet built by the spawn code of handleShooting (update, lines 995-1021).
    SDL_rand(40) is env.rand; the direction comes from the player entry of the
    character layer; the default BulletData state is moving (spec: bullets
    start in the moving state; the newer gameobject.h is not under src/). -/
def mkBullet (env : Env) (res : Resources) (obj : GameObject) : GameObject :=
  { GameObject.init with
      data := ObjectData.bullet BulletState.moving
      type := ObjectType.bullet
      direction := env.playerDirection
      texture := some res.texBullet
      currentAnimation := ANIM_BULLET_MOVING
      collider := FRect.mk 0 0 res.texBullet.h res.texBullet.h
      velocity := Vec2.mk (obj.velocity.x + 600 * obj.direction) (env.rand - 40 / 2)
      maxSpeedX := 1000
      animations := res.bulletAnims
      position := Vec2.mk
        (obj.position.x + (4 + 24 * ((obj.direction + 1) / 2)))
        (obj.position.y + TILE_SIZE / 2 + 1) }

/-- Bullet arm state test used by the pool scan. -/
def bulletIsInactive (b : GameObject) : Bool :=
  decide (bulletStateOf b = BulletState.inactive)

/-- Pool insertion of update lines 1023-1038: scan for the first bullet whose
    state is inactive and overwrite it in place; if none is found, append. -/
def spawnBullet : List GameObject → GameObject → List GameObject
  | [], bullet => [bullet]
  | b :: rest, bullet =>
      if bulletIsInactive b then bullet :: rest else b :: spawnBullet rest bullet

/-- Index of the first inactive slot the pool scan would overwrite. -/
def firstInactiveIdx : List GameObject → Option ℕ
  | [] => none
  | b :: rest =>
      if bulletIsInactive b then some 0 else (firstInactiveIdx rest).map (· + 1)

/-- Shooting overlay of the player states (update, lines 982-1046): while J is
    held the shooting texture and animation are set and, on cooldown timeout,
    the timer resets and one bullet is spawned into the pool; otherwise the
    plain texture and animation are set. -/
def handleShooting (env : Env) (res : Resources) (obj : GameObject)
    (bullets : List GameObject) (tex shootTex : Texture)
    (animIndex shootAnimIndex : Int) : GameObject × List GameObject :=
  if env.keyJ then
    let obj := { obj with texture := some shootTex, currentAnimation := shootAnimIndex }
    if (weaponTimerOf obj).isTimeout then
      let obj := resetWeaponTimer obj
      (obj, spawnBullet bullets (mkBullet env res obj))
    else (obj, bullets)
  else ({ obj with texture := some tex, currentAnimation := animIndex }, bullets)

/-- Player branch of update (lines 979-1102): weapon timer step, then the
    locomotion state machine with its shooting overlay. -/
def playerBranch (env : Env) (res : Resources) (currentDirection : ℚ)
    (obj : GameObject) (bullets : List GameObject) (dt : ℚ) :
    GameObject × List GameObject :=
  let obj := stepWeaponTimer obj dt
  match playerStateOf obj with
  | PlayerState.idle =>
      let obj :=
        if currentDirection ≠ 0 then setPlayerState obj PlayerState.running
        else decelerate obj dt
      handleShooting env res obj bullets res.texIdle res.texShoot
        ANIM_PLAYER_IDLE ANIM_PLAYER_SHOOT
  | PlayerState.running =>
      let obj :=
        if currentDirection = 0 then setPlayerState obj PlayerState.idle else obj
      if obj.velocity.x * obj.direction < 0 ∧ obj.grounded = true then
        handleShooting env res obj bullets res.texSlide res.texSlideShoot
          ANIM_PLAYER_SLIDE_SHOOT ANIM_PLAYER_SLIDE_SHOOT
      else
        handleShooting env res obj bullets res.texRun res.texRunShoot
          ANIM_PLAYER_RUN ANIM_PLAYER_RUN
  | PlayerState.jumping =>
      handleShooting env res obj bullets res.texRun res.texRunShoot
        ANIM_PLAYER_RUN ANIM_PLAYER_RUN

/-- Viewport culling test of the moving bullet branch (update, lines
    1110-1113): true when the position leaves the camera viewport on any
    edge. -/
def bulletOffscreen (env : Env) (obj : GameObject) : Bool :=
  decide (obj.position.x - env.viewport.x < 0) ||
  decide (obj.position.x - env.viewport.x > env.logW) ||
  decide (obj.position.y - env.viewport.y < 0) ||
  decide (obj.position.y - env.viewport.y > env.logH)

/-- Animation-finished test of the colliding bullet branch: the current
    animation of the object (valid index by the data-model invariant). -/
def animIsDone (obj : GameObject) : Bool :=
  match obj.animations.get? obj.currentAnimation.toNat with
  | some a => a.isDone
  | none => false

/-- Bullet branch of update (lines 1104-1127): a moving bullet leaving the
    viewport becomes inactive; a colliding bullet whose impact animation is
    done becomes inactive; an inactive bullet is untouched. -/
def bulletStep (env : Env) (obj : GameObject) : GameObject :=
  match bulletStateOf obj with
  | BulletState.moving =>
      if bulletOffscreen env obj then setBulletState obj BulletState.inactive else obj
  | BulletState.colliding =>
      if animIsDone obj then setBulletState obj BulletState.inactive else obj
  | BulletState.inactive => obj

/-- Velocity integration and clamp of update lines 1134-1139: velocity gains
    currentDirection * acceleration * dt componentwise, then, when the
    horizontal speed exceeds maxSpeedX, velocity.x is snapped to
    currentDirection * maxSpeedX. -/
def integrateVelocity (cd : ℚ) (obj : GameObject) (dt : ℚ) : GameObject :=
  let vx := obj.velocity.x + cd * obj.acceleration.x * dt
  let vy := obj.velocity.y + cd * obj.acceleration.y * dt
  let vx2 := if |vx| > obj.maxSpeedX then cd * obj.maxSpeedX else vx
  { obj with velocity := Vec2.mk vx2 vy }

/-- Position integration of update line 1142. -/
def integratePosition (obj : GameObject) (dt : ℚ) : GameObject :=
  { obj with
      position := Vec2.mk (obj.position.x + obj.velocity.x * dt)
        (obj.position.y + obj.velocity.y * dt) }

/-- Minimum-penetration push-out of collisionResponse (genericResponse lambda,
    lines 1197-1225): horizontal when the overlap is strictly narrower than
    tall, displacing against the sign of the velocity on that axis and zeroing
    that velocity component; vertical otherwise (so also on a tie). -/
def genericResponse (rectC : FRect) (objA : GameObject) : GameObject :=
  if rectC.w < rectC.h then
    let px :=
      if objA.velocity.x > 0 then objA.position.x - rectC.w
      else if objA.velocity.x < 0 then objA.position.x + rectC.w
      else objA.position.x
    { objA with
      position := Vec2.mk px objA.position.y
      velocity := Vec2.mk 0 objA.velocity.y }
  else
    let py :=
      if objA.velocity.y > 0 then objA.position.y - rectC.h
      else if objA.velocity.y < 0 then objA.position.y + rectC.h
      else objA.position.y
    { objA with
      position := Vec2.mk objA.position.x py
      velocity := Vec2.mk objA.velocity.x 0 }

/-- Type-directed collision response (lines 1193-1255).  Only the first
    object is ever mutated: a player against level geometry is pushed out; a
    moving bullet is pushed out, switches to the colliding state and to the
    bullet-impact texture and animation (the line that would zero its whole
    velocity is commented out in the source); every other combination is a
    no-op. -/
def collisionResponse (res : Resources) (rectC : FRect)
    (objA objB : GameObject) : GameObject :=
  if objA.type = ObjectType.player then
    match objB.type with
    | ObjectType.level => genericResponse rectC objA
    | _ => objA
  else if objA.type = ObjectType.bullet then
    match bulletStateOf objA with
    | BulletState.moving =>
        let a := genericResponse rectC objA
        { a with
          data := ObjectData.bullet BulletState.colliding
          texture := some res.texBulletHit
          currentAnimation := ANIM_BULLET_HIT }
    | _ => objA
  else objA

/-- Pairwise collision check (lines 1257-1281): world rectangles of the two
    colliders are intersected and, when an intersection exists, the response
    runs with the clip rectangle. -/
def checkCollisions (res : Resources) (a b : GameObject) : GameObject :=
  match getRectIntersection (objRect a) (objRect b) with
  | some rectC => collisionResponse res rectC a b
  | none => a

/-- One iteration of the collision loop of update (lines 1146-1180): the
    collision check against objB runs first, then the ground sensor of the
    (possibly displaced) object is tested against objB, but only when objB is
    level geometry. -/
def collideStep (res : Resources) (acc : GameObject × Bool)
    (objB : GameObject) : GameObject × Bool :=
  let obj1 := checkCollisions res acc.1 objB
  let found :=
    if objB.type = ObjectType.level then
      acc.2 || (getRectIntersection (sensorRect obj1) (objRect objB)).isSome
    else acc.2
  (obj1, found)

/-- Collision loop of update over every other object (the C++ pointer
    inequality check corresponds to the others list not containing the
    object being updated). -/
def collidePhase (res : Resources) (others : List GameObject)
    (obj : GameObject) : GameObject × Bool :=
  others.foldl (collideStep res) (obj, false)

/-- Grounded switch at the end of update (lines 1182-1190): when the sensed
    value differs from the stored flag the flag is overwritten, and a player
    that just became grounded has its state reset to idle. -/
def applyGrounded (foundGround : Bool) (obj : GameObject) : GameObject :=
  if obj.grounded ≠ foundGround then
    let o := { obj with grounded := foundGround }
    if foundGround = true ∧ obj.type = ObjectType.player then
      setPlayerState o PlayerState.idle
    else o
  else obj

/-- Everything update does before the collision loop (lines 958-1142):
    gravity, input direction, the type-specific branch, facing update,
    velocity integration with clamp, position integration.  Returns the
    updated object and the (possibly grown) bullet pool. -/
def updatePreCollide (env : Env) (res : Resources) (obj : GameObject)
    (bullets : List GameObject) (dt : ℚ) : GameObject × List GameObject :=
  let obj := applyGravity obj dt
  let cd := currentDirectionOf env obj
  let p :=
    if obj.type = ObjectType.player then playerBranch env res cd obj bullets dt
    else if obj.type = ObjectType.bullet then (bulletStep env obj, bullets)
    else (obj, bullets)
  let obj1 := p.1
  let obj2 := if cd ≠ 0 then { obj1 with direction := cd } else obj1
  let obj3 := integrateVelocity cd obj2 dt
  (integratePosition obj3 dt, p.2)

/-- One full update step (lines 958-1191) for one object: the pre-collision
    pipeline, the collision loop against every other object with ground
    sensing, and the grounded switch. -/
def update (env : Env) (res : Resources) (others : List GameObject)
    (obj : GameObject) (bullets : List GameObject) (dt : ℚ) :
    GameObject × List GameObject :=
  let p := updatePreCollide env res obj bullets dt
  let c := collidePhase res others p.1
  (applyGrounded c.2 c.1, p.2)

/-- Jump handling of handleKeyInput (lines 1385-1413): a K key-down in idle
    or running switches the state to jumping and adds the jump force -200 to
    the vertical velocity; the jumping state handles no key at all. -/
def handleKeyInput (obj : GameObject) (key : Scancode) (keyDown : Bool) :
    GameObject :=
  if obj.type = ObjectType.player then
    match playerStateOf obj with
    | PlayerState.idle =>
        if key = Scancode.scanK ∧ keyDown = true then
          { setPlayerState obj PlayerState.jumping with
              velocity := Vec2.mk obj.velocity.x (obj.velocity.y + (-200)) }
        else obj
    | PlayerState.running =>
        if key = Scancode.scanK ∧ keyDown = true then
          { setPlayerState obj PlayerState.jumping with
              velocity := Vec2.mk obj.velocity.x (obj.velocity.y + (-200)) }
        else obj
    | PlayerState.jumping => obj
  else obj

/-- Tile factory of createTiles (createObject lambda, lines 1319-1327) with
    the concrete logH = 320 and MAP_ROWS = 5 of the source. -/
def createObject (r c : ℤ) (tex : Texture) (ty : ObjectType) : GameObject :=
  { GameObject.init with
      type := ty
      position := Vec2.mk (c * TILE_SIZE) (320 - (5 - r) * TILE_SIZE)
      texture := some tex
      collider := FRect.mk 0 0 TILE_SIZE TILE_SIZE }

/-- Modelled from the spec: the default PlayerData of the newer gameobject.h
    (state idle, a weapon cooldown timer with some fixed timeout whose
    concrete value no claim depends on). -/
def playerDataInit : ObjectData :=
  ObjectData.player PlayerState.idle (Timer.mk (1/4) 0)

/-- Player object as built by the map loader (createTiles, lines 1347-1360). -/
def playerInit (r c : ℤ) (res : Resources) : GameObject :=
  { createObject r c res.texIdle ObjectType.player with
      data := playerDataInit
      animations := res.playerAnims
      currentAnimation := ANIM_PLAYER_IDLE
      acceleration := Vec2.mk 300 0
      maxSpeedX := 100
      dynamic := true
      collider := FRect.mk 11 6 10 26 }

/-- Concrete texture handle used by the witness scenarios. -/
def sampleTex (n : ℕ) : Texture := Texture.mk n 32 32

/-- Concrete resource set matching the Animation values of Resources.load. -/
def sampleRes : Resources :=
  { texIdle := sampleTex 0
    texRun := sampleTex 1
    texSlide := sampleTex 2
    texBrick := sampleTex 3
    texGrass := sampleTex 4
    texGround := sampleTex 5
    texPanel := sampleTex 6
    texBullet := sampleTex 7
    texBulletHit := sampleTex 8
    texShoot := sampleTex 9
    texRunShoot := sampleTex 10
    texSlideShoot := sampleTex 11
    playerAnims := [Animation.mk 8 (8/5) 0, Animation.mk 4 (1/2) 0,
      Animation.mk 1 1 0, Animation.mk 4 (1/2) 0, Animation.mk 4 (1/2) 0]
    bulletAnims := [Animation.mk 4 (1/20) 0, Animation.mk 4 (3/20) 0] }

/-- Concrete frame inputs: no key held, the logical 640 by 320 screen, the
    startup viewport, a middle random draw, facing right. -/
def sampleEnv : Env :=
  { keyA := false
    keyD := false
    keyJ := false
    logW := 640
    logH := 320
    viewport := FRect.mk 0 0 640 640
    rand := 20
    playerDirection := 1 }

/-- Concrete level tile at map row 4, column 2 (world position (64, 288)). -/
def groundTile : GameObject := createObject 4 2 (sampleTex 5) ObjectType.level

/-- Concrete player whose collider bottom rests exactly on groundTile's top
    edge (collider bottom 256 + 6 + 26 = 288), not yet marked grounded. -/
def restingPlayer : GameObject :=
  { playerInit 1 2 sampleRes with position := Vec2.mk 64 256 }

/-- Concrete pooled bullet in the inactive state. -/
def inactiveBullet : GameObject :=
  { GameObject.init with
      type := ObjectType.bullet
      data := ObjectData.bullet BulletState.inactive }

/-- Concrete bullet in flight. -/
def movingBullet : GameObject :=
  { GameObject.init with
      type := ObjectType.bullet
      data := ObjectData.bullet BulletState.moving
      velocity := Vec2.mk 600 7
      animations := sampleRes.bulletAnims
      currentAnimation := ANIM_BULLET_MOVING
      position := Vec2.mk 100 100
      collider := FRect.mk 0 0 32 32
      maxSpeedX := 1000 }

@[simp] theorem applyGravity_type (obj : GameObject) (dt : ℚ) :
    (applyGravity obj dt).type = obj.type := by
  simp only [applyGravity]; split <;> rfl

@[simp] theorem applyGravity_grounded (obj : GameObject) (dt : ℚ) :
    (applyGravity obj dt).grounded = obj.grounded := by
  simp only [applyGravity]; split <;> rfl

@[simp] theorem applyGravity_data (obj : GameObject) (dt : ℚ) :
    (applyGravity obj dt).data = obj.data := by
  simp only [applyGravity]; split <;> rfl

@[simp] theorem applyGravity_position (obj : GameObject) (dt : ℚ) :
    (applyGravity obj dt).position = obj.position := by
  simp only [applyGravity]; split <;> rfl

@[simp] theorem applyGravity_animations (obj : GameObject) (dt : ℚ) :
    (applyGravity obj dt).animations = obj.animations := by
  simp only [applyGravity]; split <;> rfl

@[simp] theorem applyGravity_currentAnimation (obj : GameObject) (dt : ℚ) :
    (applyGravity obj dt).currentAnimation = obj.currentAnimation := by
  simp only [applyGravity]; split <;> rfl

@[simp] theorem integrateVelocity_type (cd : ℚ) (obj : GameObject) (dt : ℚ) :
    (integrateVelocity cd obj dt).type = obj.type := rfl

@[simp] theorem integrateVelocity_grounded (cd : ℚ) (obj : GameObject) (dt : ℚ) :
    (integrateVelocity cd obj dt).grounded = obj.grounded := rfl

@[simp] theorem integrateVelocity_data (cd : ℚ) (obj : GameObject) (dt : ℚ) :
    (integrateVelocity cd obj dt).data = obj.data := rfl

@[simp] theorem integrateVelocity_position (cd : ℚ) (obj : GameObject) (dt : ℚ) :
    (integrateVelocity cd obj dt).position = obj.position := rfl

@[simp] theorem integratePosition_type (obj : GameObject) (dt : ℚ) :
    (integratePosition obj dt).type = obj.type := rfl

@[simp] theorem integratePosition_grounded (obj : GameObject) (dt : ℚ) :
    (integratePosition obj dt).grounded = obj.grounded := rfl

@[simp] theorem integratePosition_data (obj : GameObject) (dt : ℚ) :
    (integratePosition obj dt).data = obj.data := rfl

@[simp] theorem integratePosition_velocity (obj : GameObject) (dt : ℚ) :
    (integratePosition obj dt).velocity = obj.velocity := rfl

@[simp] theorem stepWeaponTimer_type (obj : GameObject) (dt : ℚ) :
    (stepWeaponTimer obj dt).type = obj.type := by
  simp only [stepWeaponTimer]; split <;> rfl

@[simp] theorem stepWeaponTimer_grounded (obj : GameObject) (dt : ℚ) :
    (stepWeaponTimer obj dt).grounded = obj.grounded := by
  simp only [stepWeaponTimer]; split <;> rfl

@[simp] theorem setPlayerState_type (obj : GameObject) (s : PlayerState) :
    (setPlayerState obj s).type = obj.type := by
  simp only [setPlayerState]; split <;> rfl

@[simp] theorem setPlayerState_grounded (obj : GameObject) (s : PlayerState) :
    (setPlayerState obj s).grounded = obj.grounded := by
  simp only [setPlayerState]; split <;> rfl

@[simp] theorem resetWeaponTimer_type (obj : GameObject) :
    (resetWeaponTimer obj).type = obj.type := by
  simp only [resetWeaponTimer]; split <;> rfl

@[simp] theorem resetWeaponTimer_grounded (obj : GameObject) :
    (resetWeaponTimer obj).grounded = obj.grounded := by
  simp only [resetWeaponTimer]; split <;> rfl

@[simp] theorem decelerate_type (obj : GameObject) (dt : ℚ) :
    (decelerate obj dt).type = obj.type := by
  simp only [decelerate]; split <;> (try split) <;> (try split) <;> rfl

@[simp] theorem decelerate_grounded (obj : GameObject) (dt : ℚ) :
    (decelerate obj dt).grounded = obj.grounded := by
  simp only [decelerate]; split <;> (try split) <;> (try split) <;> rfl

@[simp] theorem setBulletState_type (obj : GameObject) (s : BulletState) :
    (setBulletState obj s).type = obj.type := rfl

@[simp] theorem setBulletState_grounded (obj : GameObject) (s : BulletState) :
    (setBulletState obj s).grounded = obj.grounded := rfl

@[simp] theorem setBulletState_position (obj : GameObject) (s : BulletState) :
    (setBulletState obj s).position = obj.position := rfl

@[simp] theorem setBulletState_velocity (obj : GameObject) (s : BulletState) :
    (setBulletState obj s).velocity = obj.velocity := rfl

@[simp] theorem bulletStep_type (env : Env) (obj : GameObject) :
    (bulletStep env obj).type = obj.type := by
  simp only [bulletStep]; split <;> (try split) <;> rfl

@[simp] theorem bulletStep_grounded (env : Env) (obj : GameObject) :
    (bulletStep env obj).grounded = obj.grounded := by
  simp only [bulletStep]; split <;> (try split) <;> rfl

@[simp] theorem handleShooting_fst_type (env : Env) (res : Resources)
    (obj : GameObject) (bullets : List GameObject) (tex stex : Texture)
    (ai sai : Int) :
    (handleShooting env res obj bullets tex stex ai sai).1.type = obj.type := by
  simp only [handleShooting]
  split
  · split <;> simp
  · rfl

@[simp] theorem handleShooting_fst_grounded (env : Env) (res : Resources)
    (obj : GameObject) (bullets : List GameObject) (tex stex : Texture)
    (ai sai : Int) :
    (handleShooting env res obj bullets tex stex ai sai).1.grounded = obj.grounded := by
  simp only [handleShooting]
  split
  · split <;> simp
  · rfl

@[simp] theorem playerBranch_fst_type (env : Env) (res : Resources) (cd : ℚ)
    (obj : GameObject) (bullets : List GameObject) (dt : ℚ) :
    (playerBranch env res cd obj bullets dt).1.type = obj.type := by
  simp only [playerBranch]
  split <;> (try split) <;> (try split) <;> simp

@[simp] theorem playerBranch_fst_grounded (env : Env) (res : Resources) (cd : ℚ)
    (obj : GameObject) (bullets : List GameObject) (dt : ℚ) :
    (playerBranch env res cd obj bullets dt).1.grounded = obj.grounded := by
  simp only [playerBranch]
  split <;> (try split) <;> (try split) <;> simp

@[simp] theorem genericResponse_type (rc : FRect) (o : GameObject) :
    (genericResponse rc o).type = o.type := by
  simp only [genericResponse]; split <;> rfl

@[simp] theorem genericResponse_grounded (rc : FRect) (o : GameObject) :
    (genericResponse rc o).grounded = o.grounded := by
  simp only [genericResponse]; split <;> rfl

@[simp] theorem genericResponse_data (rc : FRect) (o : GameObject) :
    (genericResponse rc o).data = o.data := by
  simp only [genericResponse]; split <;> rfl

@[simp] theorem collisionResponse_type (res : Resources) (rc : FRect)
    (a b : GameObject) : (collisionResponse res rc a b).type = a.type := by
  simp only [collisionResponse]
  split
  · split <;> simp
  · split
    · split <;> simp
    · rfl

@[simp] theorem collisionResponse_grounded (res : Resources) (rc : FRect)
    (a b : GameObject) : (collisionResponse res rc a b).grounded = a.grounded := by
  simp only [collisionResponse]
  split
  · split <;> simp
  · split
    · split <;> simp
    · rfl

@[simp] theorem checkCollisions_type (res : Resources) (a b : GameObject) :
    (checkCollisions res a b).type = a.type := by
  simp only [checkCollisions]; split <;> simp

@[simp] theorem checkCollisions_grounded (res : Resources) (a b : GameObject) :
    (checkCollisions res a b).grounded = a.grounded := by
  simp only [checkCollisions]; split <;> simp

theorem collideFold_type_grounded (res : Resources) :
    ∀ (others : List GameObject) (acc : GameObject × Bool),
      (others.foldl (collideStep res) acc).1.type = acc.1.type ∧
      (others.foldl (collideStep res) acc).1.grounded = acc.1.grounded := by
  intro others
  induction others with
  | nil => intro acc; exact ⟨rfl, rfl⟩
  | cons b rest ih =>
      intro acc
      have h := ih (collideStep res acc b)
      constructor
      · rw [List.foldl_cons, h.1]
        show (checkCollisions res acc.1 b).type = acc.1.type
        simp
      · rw [List.foldl_cons, h.2]
        show (checkCollisions res acc.1 b).grounded = acc.1.grounded
        simp

@[simp] theorem collidePhase_type (res : Resources) (others : List GameObject)
    (obj : GameObject) : (collidePhase res others obj).1.type = obj.type :=
  (collideFold_type_grounded res others (obj, false)).1

@[simp] theorem collidePhase_grounded (res : Resources) (others : List GameObject)
    (obj : GameObject) : (collidePhase res others obj).1.grounded = obj.grounded :=
  (collideFold_type_grounded res others (obj, false)).2

theorem updatePreCollide_type (env : Env) (res : Resources) (obj : GameObject)
    (bullets : List GameObject) (dt : ℚ) :
    (updatePreCollide env res obj bullets dt).1.type = obj.type := by
  simp only [updatePreCollide]
  split <;> (try split) <;> (try split) <;> simp

theorem updatePreCollide_grounded (env : Env) (res : Resources) (obj : GameObject)
    (bullets : List GameObject) (dt : ℚ) :
    (updatePreCollide env res obj bullets dt).1.grounded = obj.grounded := by
  simp only [updatePreCollide]
  split <;> (try split) <;> (try split) <;> simp

/-- Concrete player moving fast enough to trip the clamp. -/
def clampObj : GameObject :=
  { playerInit 1 2 sampleRes with velocity := Vec2.mk 200 0 }

/-- C1: gravity is the first stage of update, running before any collision
    response: an object with dynamic true and grounded false gains exactly
    500 * dt on velocity.y (and nothing on velocity.x or position), while an
    object with dynamic false or grounded true receives no gravity
    contribution in that step. -/
theorem gravity_only_dynamic_airborne (obj : GameObject) (dt : ℚ) :
    (obj.dynamic = true → obj.grounded = false →
      (applyGravity obj dt).velocity.y = obj.velocity.y + 500 * dt ∧
      (applyGravity obj dt).velocity.x = obj.velocity.x ∧
      (applyGravity obj dt).position = obj.position) ∧
    (obj.dynamic = false ∨ obj.grounded = true → applyGravity obj dt = obj) := by
  constructor
  · intro h1 h2
    unfold applyGravity
    rw [if_pos (show obj.dynamic = true ∧ obj.grounded = false from ⟨h1, h2⟩)]
    refine ⟨rfl, ?_, rfl⟩
    simp
  · intro h
    simp only [applyGravity]
    rw [if_neg]
    rintro ⟨h1, h2⟩
    rcases h with h | h
    · rw [h1] at h; exact Bool.noConfusion h
    · rw [h2] at h; exact Bool.noConfusion h

/-- Witness for C1: the concrete resting player at dt = 1/60. -/
theorem gravity_only_dynamic_airborne_witness :
    (applyGravity restingPlayer (1/60)).velocity.y =
      restingPlayer.velocity.y + 500 * (1/60) :=
  ((gravity_only_dynamic_airborne restingPlayer (1/60)).1 rfl rfl).1

/-- C2: after velocity gains currentDirection * acceleration * dt, a
    horizontal speed whose magnitude exceeds maxSpeedX is snapped to
    currentDirection * maxSpeedX, taking the sign of the input direction
    (which update leaves at 0 for every non-player object and at 0 when
    neither A nor D is held); consequently with maxSpeedX = 0 any nonzero
    horizontal speed is clamped to exactly 0. -/
theorem velocity_clamp_input_direction (env : Env) (obj : GameObject)
    (cd dt : ℚ) :
    (|obj.velocity.x + cd * obj.acceleration.x * dt| > obj.maxSpeedX →
      (integrateVelocity cd obj dt).velocity.x = cd * obj.maxSpeedX) ∧
    (¬ |obj.velocity.x + cd * obj.acceleration.x * dt| > obj.maxSpeedX →
      (integrateVelocity cd obj dt).velocity.x =
        obj.velocity.x + cd * obj.acceleration.x * dt) ∧
    (obj.type ≠ ObjectType.player → currentDirectionOf env obj = 0) ∧
    (env.keyA = false → env.keyD = false → currentDirectionOf env obj = 0) ∧
    (obj.maxSpeedX = 0 → |obj.velocity.x + cd * obj.acceleration.x * dt| > 0 →
      (integrateVelocity cd obj dt).velocity.x = 0) := by
  refine ⟨?_, ?_, ?_, ?_, ?_⟩
  · intro h
    simp only [integrateVelocity]
    rw [if_pos h]
  · intro h
    simp only [integrateVelocity]
    rw [if_neg h]
  · intro h
    simp [currentDirectionOf, h]
  · intro h1 h2
    simp [currentDirectionOf, h1, h2]
  · intro h0 h
    simp only [integrateVelocity]
    rw [h0]
    rw [if_pos h]
    simp

/-- Witness for C2: the concrete fast player is snapped to 1 * 100. -/
theorem velocity_clamp_input_direction_witness :
    (integrateVelocity 1 clampObj (1/60)).velocity.x = 1 * clampObj.maxSpeedX :=
  (velocity_clamp_input_direction sampleEnv clampObj 1 (1/60)).1 (by
    show |(200:ℚ) + 1 * 300 * (1/60)| > 100
    rw [show (200:ℚ) + 1 * 300 * (1/60) = 205 by norm_num]
    rw [abs_of_pos (by norm_num)]
    norm_num)

/-- C5: a K key-down while the player state is idle or running sets the state
    to jumping and adds the jump force -200 to velocity.y (exactly -200 when
    starting from vertical rest), leaving velocity.x alone; a K key-down in
    the jumping state changes nothing at all. -/
theorem jump_key_transitions (obj : GameObject) (keyDown : Bool)
    (hp : obj.type = ObjectType.player)
    (hw : ∃ s t, obj.data = ObjectData.player s t) :
    ((playerStateOf obj = PlayerState.idle ∨
        playerStateOf obj = PlayerState.running) → keyDown = true →
      playerStateOf (handleKeyInput obj Scancode.scanK keyDown) =
        PlayerState.jumping ∧
      (handleKeyInput obj Scancode.scanK keyDown).velocity.y =
        obj.velocity.y + (-200) ∧
      (handleKeyInput obj Scancode.scanK keyDown).velocity.x =
        obj.velocity.x) ∧
    ((playerStateOf obj = PlayerState.idle ∨
        playerStateOf obj = PlayerState.running) → keyDown = true →
      obj.velocity.y = 0 →
      (handleKeyInput obj Scancode.scanK keyDown).velocity.y = -200) ∧
    (playerStateOf obj = PlayerState.jumping →
      handleKeyInput obj Scancode.scanK keyDown = obj) := by
  obtain ⟨s, t, hd⟩ := hw
  have hps : playerStateOf obj = s := by simp [playerStateOf, hd]
  refine ⟨?_, ?_, ?_⟩
  · rintro (h | h) hk <;> subst hk <;> rw [hps] at h <;> subst h <;>
      simp [handleKeyInput, hp, hps, hd, setPlayerState, playerStateOf]
  · rintro h hk hv
    rcases h with h | h <;> subst hk <;> rw [hps] at h <;> subst h <;>
      simp [handleKeyInput, hp, hps, hd, setPlayerState, playerStateOf, hv]
  · intro h
    rw [hps] at h
    subst h
    simp [handleKeyInput, hp, hps]

/-- Witness for C5: the concrete resting player jumps to exactly -200. -/
theorem jump_key_transitions_witness :
    playerStateOf (handleKeyInput restingPlayer Scancode.scanK true) =
      PlayerState.jumping ∧
    (handleKeyInput restingPlayer Scancode.scanK true).velocity.y = -200 :=
  ⟨((jump_key_transitions restingPlayer true rfl
      ⟨PlayerState.idle, Timer.mk (1/4) 0, rfl⟩).1 (Or.inl rfl) rfl).1,
    (jump_key_transitions restingPlayer true rfl
      ⟨PlayerState.idle, Timer.mk (1/4) 0, rfl⟩).2.1 (Or.inl rfl) rfl rfl⟩

/-- C9: idle-state deceleration with no input and a nonzero horizontal
    velocity moves velocity.x toward zero by exactly 1.5 * acceleration.x *
    dt, except that a remaining magnitude smaller than that step is set
    exactly to 0; the magnitude never overshoots past zero and the sign
    never flips. -/
theorem idle_deceleration (obj : GameObject) (dt : ℚ)
    (hv : obj.velocity.x ≠ 0) (ha : 0 ≤ obj.acceleration.x) (hd : 0 ≤ dt) :
    (|obj.velocity.x| < 3/2 * obj.acceleration.x * dt →
      (decelerate obj dt).velocity.x = 0) ∧
    (3/2 * obj.acceleration.x * dt ≤ |obj.velocity.x| →
      |(decelerate obj dt).velocity.x| =
        |obj.velocity.x| - 3/2 * obj.acceleration.x * dt ∧
      0 ≤ (decelerate obj dt).velocity.x * obj.velocity.x) ∧
    (decelerate obj dt).velocity.y = obj.velocity.y := by
  have hstep : (0:ℚ) ≤ 3/2 * obj.acceleration.x * dt := by positivity
  rcases lt_or_gt_of_ne hv with hneg | hpos
  · have hfac : ¬ obj.velocity.x > 0 := not_lt.mpr (le_of_lt hneg)
    have habs : |(3/2 : ℚ) * obj.acceleration.x * dt| =
        3/2 * obj.acceleration.x * dt := abs_of_nonneg hstep
    refine ⟨?_, ?_, ?_⟩
    · intro h
      simp only [decelerate, if_pos hv, if_neg hfac]
      rw [if_pos (by rw [habs]; exact h)]
    · intro h
      simp only [decelerate, if_pos hv, if_neg hfac]
      rw [if_neg (by rw [habs]; exact not_lt.mpr h)]
      have hvx : |obj.velocity.x| = -obj.velocity.x := abs_of_neg hneg
      rw [hvx] at h ⊢
      constructor
      · rw [abs_of_nonpos (by linarith)]
        ring
      · nlinarith
    · simp only [decelerate, if_pos hv, if_neg hfac]
      split <;> rfl
  · have hfac : obj.velocity.x > 0 := hpos
    have habs : |(-(3/2) : ℚ) * obj.acceleration.x * dt| =
        3/2 * obj.acceleration.x * dt := by
      rw [abs_mul, abs_mul]
      rw [abs_of_nonneg ha, abs_of_nonneg hd]
      norm_num
    refine ⟨?_, ?_, ?_⟩
    · intro h
      simp only [decelerate, if_pos hv, if_pos hfac]
      rw [if_pos (by rw [habs]; exact h)]
    · intro h
      simp only [decelerate, if_pos hv, if_pos hfac]
      rw [if_neg (by rw [habs]; exact not_lt.mpr h)]
      have hvx : |obj.velocity.x| = obj.velocity.x := abs_of_pos hpos
      rw [hvx] at h ⊢
      constructor
      · rw [abs_of_nonneg (by linarith)]
        ring
      · nlinarith
    · simp only [decelerate, if_pos hv, if_pos hfac]
      split <;> rfl

/-- Witness for C9: the concrete fast player at dt = 1/60 loses exactly the
    7.5 decel step. -/
theorem idle_deceleration_witness :
    |(decelerate clampObj (1/60)).velocity.x| =
      |clampObj.velocity.x| - 3/2 * clampObj.acceleration.x * (1/60) :=
  ((idle_deceleration clampObj (1/60)
    (by show (200:ℚ) ≠ 0; norm_num)
    (by show (0:ℚ) ≤ 300; norm_num)
    (by norm_num)).2.1
    (by
      show 3/2 * (300:ℚ) * (1/60) ≤ |(200:ℚ)|
      rw [abs_of_pos (by norm_num)]
      norm_num)).1

/-- Concrete colliding player used by the C3 scenarios. -/
def diagPlayer : GameObject :=
  { restingPlayer with velocity := Vec2.mk 1 1 }

/-- C3 counterexample: with equal penetration depths (overlap 1 by 1) and a
    player moving diagonally, the code resolves vertically, not horizontally
    as the claim states: velocity.x stays 1 (the claim demands 0), velocity.y
    is zeroed, and the displacement happens on position.y only. -/
theorem collision_tie_vertical_cex :
    (collisionResponse sampleRes (FRect.mk 0 0 1 1) diagPlayer groundTile).velocity.x = 1 ∧
    (collisionResponse sampleRes (FRect.mk 0 0 1 1) diagPlayer groundTile).velocity.y = 0 ∧
    (collisionResponse sampleRes (FRect.mk 0 0 1 1) diagPlayer groundTile).position.y =
      diagPlayer.position.y - 1 ∧
    (collisionResponse sampleRes (FRect.mk 0 0 1 1) diagPlayer groundTile).position.x =
      diagPlayer.position.x ∧
    (1:ℚ) ≠ 0 := by
  refine ⟨?_, ?_, ?_, ?_, by norm_num⟩ <;>
    norm_num [collisionResponse, genericResponse, diagPlayer, restingPlayer,
      playerInit, createObject, GameObject.init, groundTile, sampleRes,
      sampleTex, TILE_SIZE]

/-- C3 (amended): a player overlapping level geometry is pushed out along the
    axis of strictly smaller penetration depth: when the overlap is narrower
    than tall the resolution is horizontal (velocity.x zeroed, position.x
    displaced by the overlap width against the motion, vertical components
    untouched); otherwise, including the case of equal depths, the resolution
    is vertical only (the tie breaks toward vertical, not horizontal). -/
theorem collision_min_axis_resolution (res : Resources) (rc : FRect)
    (a b : GameObject) (hp : a.type = ObjectType.player)
    (hl : b.type = ObjectType.level) :
    (rc.w < rc.h →
      (collisionResponse res rc a b).velocity.x = 0 ∧
      (collisionResponse res rc a b).velocity.y = a.velocity.y ∧
      (collisionResponse res rc a b).position.y = a.position.y ∧
      (collisionResponse res rc a b).position.x =
        (if a.velocity.x > 0 then a.position.x - rc.w
         else if a.velocity.x < 0 then a.position.x + rc.w
         else a.position.x)) ∧
    (¬ rc.w < rc.h →
      (collisionResponse res rc a b).velocity.y = 0 ∧
      (collisionResponse res rc a b).velocity.x = a.velocity.x ∧
      (collisionResponse res rc a b).position.x = a.position.x ∧
      (collisionResponse res rc a b).position.y =
        (if a.velocity.y > 0 then a.position.y - rc.h
         else if a.velocity.y < 0 then a.position.y + rc.h
         else a.position.y)) := by
  have hcr : collisionResponse res rc a b = genericResponse rc a := by
    simp [collisionResponse, hp, hl]
  rw [hcr]
  constructor
  · intro h
    simp only [genericResponse]
    rw [if_pos h]
    exact ⟨rfl, rfl, rfl, rfl⟩
  · intro h
    simp only [genericResponse]
    rw [if_neg h]
    exact ⟨rfl, rfl, rfl, rfl⟩

/-- Witness for the amended C3: a 1 by 2 overlap resolves horizontally on the
    concrete diagonal player. -/
theorem collision_min_axis_resolution_witness :
    (collisionResponse sampleRes (FRect.mk 0 0 1 2) diagPlayer groundTile).velocity.x = 0 ∧
    (collisionResponse sampleRes (FRect.mk 0 0 1 2) diagPlayer groundTile).velocity.y =
      diagPlayer.velocity.y :=
  ⟨((collision_min_axis_resolution sampleRes (FRect.mk 0 0 1 2) diagPlayer
      groundTile rfl rfl).1 (by norm_num)).1,
   ((collision_min_axis_resolution sampleRes (FRect.mk 0 0 1 2) diagPlayer
      groundTile rfl rfl).1 (by norm_num)).2.1⟩

/-- C8 counterexample: a moving bullet with velocity (600, 7) hitting a 1 by 2
    overlap does transition to colliding, but its velocity is not zeroed on
    both components as the claim states: velocity.y stays 7. -/
theorem bullet_impact_velocity_cex :
    bulletStateOf (collisionResponse sampleRes (FRect.mk 0 0 1 2)
      movingBullet groundTile) = BulletState.colliding ∧
    (collisionResponse sampleRes (FRect.mk 0 0 1 2)
      movingBullet groundTile).velocity.y = 7 ∧
    (7:ℚ) ≠ 0 := by
  refine ⟨?_, ?_, by norm_num⟩ <;>
    (norm_num [collisionResponse, genericResponse, bulletStateOf, movingBullet,
      GameObject.init, sampleRes, sampleTex]
     <;> decide)

/-- C8 (amended): a moving bullet overlapping another entity transitions to
    the colliding state and switches to the bullet-impact texture and
    animation, but only the velocity component of the resolution axis is
    zeroed (the source line that would zero the whole velocity is commented
    out); the other component keeps its value. -/
theorem bullet_impact_response (res : Resources) (rc : FRect) (a b : GameObject)
    (ha : a.type = ObjectType.bullet) (hs : bulletStateOf a = BulletState.moving) :
    bulletStateOf (collisionResponse res rc a b) = BulletState.colliding ∧
    (collisionResponse res rc a b).texture = some res.texBulletHit ∧
    (collisionResponse res rc a b).currentAnimation = ANIM_BULLET_HIT ∧
    (rc.w < rc.h →
      (collisionResponse res rc a b).velocity.x = 0 ∧
      (collisionResponse res rc a b).velocity.y = a.velocity.y) ∧
    (¬ rc.w < rc.h →
      (collisionResponse res rc a b).velocity.y = 0 ∧
      (collisionResponse res rc a b).velocity.x = a.velocity.x) := by
  have hne : ¬ a.type = ObjectType.player := by
    rw [ha]; intro h; exact ObjectType.noConfusion h
  have hcr : collisionResponse res rc a b =
      { genericResponse rc a with
          data := ObjectData.bullet BulletState.colliding
          texture := some res.texBulletHit
          currentAnimation := ANIM_BULLET_HIT } := by
    simp [collisionResponse, hne, ha, hs]
  rw [hcr]
  refine ⟨rfl, rfl, rfl, ?_, ?_⟩
  · intro h
    show (genericResponse rc a).velocity.x = 0 ∧
      (genericResponse rc a).velocity.y = a.velocity.y
    simp only [genericResponse]
    rw [if_pos h]
    exact ⟨rfl, rfl⟩
  · intro h
    show (genericResponse rc a).velocity.y = 0 ∧
      (genericResponse rc a).velocity.x = a.velocity.x
    simp only [genericResponse]
    rw [if_neg h]
    exact ⟨rfl, rfl⟩

/-- Witness for the amended C8 on the concrete moving bullet. -/
theorem bullet_impact_response_witness :
    bulletStateOf (collisionResponse sampleRes (FRect.mk 0 0 1 2)
      movingBullet groundTile) = BulletState.colliding ∧
    (collisionResponse sampleRes (FRect.mk 0 0 1 2)
      movingBullet groundTile).texture = some sampleRes.texBulletHit :=
  ⟨(bullet_impact_response sampleRes (FRect.mk 0 0 1 2) movingBullet
      groundTile rfl rfl).1,
   (bullet_impact_response sampleRes (FRect.mk 0 0 1 2) movingBullet
      groundTile rfl rfl).2.1⟩

/-- C6: spawning into the pool overwrites the lowest-indexed inactive slot in
    place, preserving the pool size, and appends exactly one new entry (pool
    grows by exactly 1) when no slot is inactive. -/
theorem bullet_pool_spawn (bullets : List GameObject) (nb : GameObject) :
    (∀ i, firstInactiveIdx bullets = some i →
      spawnBullet bullets nb = bullets.set i nb ∧
      (spawnBullet bullets nb).length = bullets.length) ∧
    (firstInactiveIdx bullets = none →
      spawnBullet bullets nb = bullets ++ [nb] ∧
      (spawnBullet bullets nb).length = bullets.length + 1) ∧
    (firstInactiveIdx bullets = none ↔
      ∀ b ∈ bullets, bulletIsInactive b = false) := by
  induction bullets with
  | nil =>
      refine ⟨?_, ?_, ?_⟩
      · intro i h; exact Option.noConfusion h
      · intro _; exact ⟨rfl, rfl⟩
      · simp [firstInactiveIdx]
  | cons b rest ih =>
      by_cases hb : bulletIsInactive b
      · refine ⟨?_, ?_, ?_⟩
        · intro i h
          simp only [firstInactiveIdx, if_pos hb] at h
          obtain rfl : (0:ℕ) = i := Option.some.inj h
          constructor
          · simp [spawnBullet, hb]
          · simp [spawnBullet, hb]
        · intro h
          simp only [firstInactiveIdx, if_pos hb] at h
          exact Option.noConfusion h
        · constructor
          · intro h
            simp only [firstInactiveIdx, if_pos hb] at h
            exact Option.noConfusion h
          · intro h
            have hfalse := h b (List.mem_cons_self b rest)
            rw [hb] at hfalse
            exact Bool.noConfusion hfalse
      · have hbf : bulletIsInactive b = false := Bool.not_eq_true _ |>.mp hb
        refine ⟨?_, ?_, ?_⟩
        · intro i h
          simp only [firstInactiveIdx, if_neg hb] at h
          obtain ⟨j, hj, rfl⟩ := Option.map_eq_some'.mp h
          have hrest := (ih.1 j hj)
          constructor
          · simp only [spawnBullet, hbf, Bool.false_eq_true, if_false,
              List.set_cons_succ]
            rw [hrest.1]
          · simp [spawnBullet, hbf, hrest.2]
        · intro h
          simp only [firstInactiveIdx, if_neg hb, Option.map_eq_none'] at h
          have hrest := ih.2.1 h
          constructor
          · simp only [spawnBullet, hbf, Bool.false_eq_true, if_false,
              List.cons_append]
            rw [hrest.1]
          · simp [spawnBullet, hbf, hrest.2]
        · simp only [firstInactiveIdx, if_neg hb, Option.map_eq_none']
          rw [ih.2.2]
          simp [hbf]

/-- Witness for C6: a pool whose first slot is inactive is overwritten in
    place at index 0 and keeps its size. -/
theorem bullet_pool_spawn_witness :
    spawnBullet [inactiveBullet, movingBullet] movingBullet =
      List.set [inactiveBullet, movingBullet] 0 movingBullet ∧
    (spawnBullet [inactiveBullet, movingBullet] movingBullet).length =
      ([inactiveBullet, movingBullet] : List GameObject).length :=
  (bullet_pool_spawn [inactiveBullet, movingBullet] movingBullet).1 0 rfl

@[simp] theorem setPlayerState_position (obj : GameObject) (s : PlayerState) :
    (setPlayerState obj s).position = obj.position := by
  simp only [setPlayerState]; split <;> rfl

@[simp] theorem setPlayerState_velocity (obj : GameObject) (s : PlayerState) :
    (setPlayerState obj s).velocity = obj.velocity := by
  simp only [setPlayerState]; split <;> rfl

@[simp] theorem applyGrounded_position (fg : Bool) (obj : GameObject) :
    (applyGrounded fg obj).position = obj.position := by
  simp only [applyGrounded]; split <;> (try split) <;> simp

@[simp] theorem applyGrounded_velocity (fg : Bool) (obj : GameObject) :
    (applyGrounded fg obj).velocity = obj.velocity := by
  simp only [applyGrounded]; split <;> (try split) <;> simp

@[simp] theorem applyGrounded_type (fg : Bool) (obj : GameObject) :
    (applyGrounded fg obj).type = obj.type := by
  simp only [applyGrounded]; split <;> (try split) <;> simp

theorem applyGrounded_data_nonplayer (fg : Bool) (obj : GameObject)
    (h : obj.type ≠ ObjectType.player) :
    (applyGrounded fg obj).data = obj.data := by
  simp only [applyGrounded]
  split
  · rw [if_neg]
    rintro ⟨_, hpl⟩; exact h hpl
  · rfl

theorem collisionResponse_level_id (res : Resources) (rc : FRect)
    (a b : GameObject) (h : a.type = ObjectType.level) :
    collisionResponse res rc a b = a := by
  have h1 : ¬ a.type = ObjectType.player := by
    rw [h]; intro hc; exact ObjectType.noConfusion hc
  have h2 : ¬ a.type = ObjectType.bullet := by
    rw [h]; intro hc; exact ObjectType.noConfusion hc
  unfold collisionResponse
  rw [if_neg h1, if_neg h2]

theorem checkCollisions_level_id (res : Resources) (a b : GameObject)
    (h : a.type = ObjectType.level) : checkCollisions res a b = a := by
  unfold checkCollisions
  split
  · exact collisionResponse_level_id res _ a b h
  · rfl

theorem collideFold_level_fst (res : Resources) :
    ∀ (others : List GameObject) (o : GameObject) (fg : Bool),
      o.type = ObjectType.level →
      (List.foldl (collideStep res) (o, fg) others).1 = o := by
  intro others
  induction others with
  | nil => intro o fg _; rfl
  | cons b rest ih =>
      intro o fg h
      rw [List.foldl_cons]
      have hcs : (collideStep res (o, fg) b).1 = checkCollisions res o b := rfl
      have hid : (collideStep res (o, fg) b).1 = o := by
        rw [hcs]; exact checkCollisions_level_id res o b h
      have htype : (collideStep res (o, fg) b).1.type = ObjectType.level := by
        rw [hid]; exact h
      have := ih (collideStep res (o, fg) b).1 (collideStep res (o, fg) b).2 htype
      rw [this]
      exact hid

/-- C10: a level-type object with the shape createTiles gives it (not
    dynamic, zero velocity, zero maxSpeedX) keeps its position and velocity
    across one full update step, and collisionResponse never mutates a
    level-type first object (it only ever mutates its first argument and has
    no branch for a level-type first argument). -/
theorem level_tile_static (env : Env) (res : Resources)
    (others bullets : List GameObject) (obj : GameObject) (dt : ℚ)
    (ht : obj.type = ObjectType.level) (hd : obj.dynamic = false)
    (hv : obj.velocity = Vec2.mk 0 0) (hm : obj.maxSpeedX = 0) :
    (update env res others obj bullets dt).1.position = obj.position ∧
    (update env res others obj bullets dt).1.velocity = obj.velocity ∧
    (∀ rc (b : GameObject), collisionResponse res rc obj b = obj) := by
  have hx : obj.velocity.x = 0 := by rw [hv]
  have hy : obj.velocity.y = 0 := by rw [hv]
  have h1 : applyGravity obj dt = obj := by
    unfold applyGravity
    rw [if_neg]
    rintro ⟨hdy, _⟩
    rw [hd] at hdy
    exact Bool.noConfusion hdy
  have hcd : currentDirectionOf env obj = 0 := by
    simp [currentDirectionOf, ht]
  have hiv : integrateVelocity 0 obj dt = obj := by
    simp only [integrateVelocity, zero_mul, add_zero]
    rw [if_neg]
    rw [hx, hm]
    simp
  have hip : integratePosition obj dt = obj := by
    simp only [integratePosition, hx, hy, zero_mul, add_zero]
  have hpre : updatePreCollide env res obj bullets dt = (obj, bullets) := by
    simp [updatePreCollide, h1, hcd, ht, hiv, hip]
  have hfold : (collidePhase res others obj).1 = obj :=
    collideFold_level_fst res others obj false ht
  refine ⟨?_, ?_, fun rc b => collisionResponse_level_id res rc obj b ht⟩
  · show (applyGrounded
        (collidePhase res others (updatePreCollide env res obj bullets dt).1).2
        (collidePhase res others (updatePreCollide env res obj bullets dt).1).1).position =
      obj.position
    rw [hpre]
    simp [hfold]
  · show (applyGrounded
        (collidePhase res others (updatePreCollide env res obj bullets dt).1).2
        (collidePhase res others (updatePreCollide env res obj bullets dt).1).1).velocity =
      obj.velocity
    rw [hpre]
    simp [hfold]

/-- Witness for C10: the concrete ground tile is untouched by a full update
    step at dt = 1/60 with the resting player nearby. -/
theorem level_tile_static_witness :
    (update sampleEnv sampleRes [restingPlayer] groundTile [] (1/60)).1.position =
      groundTile.position ∧
    (update sampleEnv sampleRes [restingPlayer] groundTile [] (1/60)).1.velocity =
      groundTile.velocity :=
  ⟨(level_tile_static sampleEnv sampleRes [restingPlayer] [] groundTile (1/60)
      rfl rfl rfl rfl).1,
   (level_tile_static sampleEnv sampleRes [restingPlayer] [] groundTile (1/60)
      rfl rfl rfl rfl).2.1⟩

@[simp] theorem playerStateOf_set_idle (o : GameObject) :
    playerStateOf (setPlayerState o PlayerState.idle) = PlayerState.idle := by
  cases ho : o.data <;> simp [setPlayerState, playerStateOf, ho]

theorem playerStateOf_congr (a b : GameObject) (h : a.data = b.data) :
    playerStateOf a = playerStateOf b := by
  unfold playerStateOf; rw [h]

@[simp] theorem stepWeaponTimer_state (obj : GameObject) (dt : ℚ) :
    playerStateOf (stepWeaponTimer obj dt) = playerStateOf obj := by
  cases h : obj.data <;> simp [stepWeaponTimer, playerStateOf, h]

@[simp] theorem resetWeaponTimer_state (obj : GameObject) :
    playerStateOf (resetWeaponTimer obj) = playerStateOf obj := by
  cases h : obj.data <;> simp [resetWeaponTimer, playerStateOf, h]

theorem handleShooting_fst_state (env : Env) (res : Resources)
    (obj : GameObject) (bullets : List GameObject) (tex stex : Texture)
    (ai sai : Int) :
    playerStateOf (handleShooting env res obj bullets tex stex ai sai).1 =
      playerStateOf obj := by
  simp only [handleShooting]
  split
  · split
    · rw [resetWeaponTimer_state]
      exact playerStateOf_congr _ _ rfl
    · exact playerStateOf_congr _ _ rfl
  · exact playerStateOf_congr _ _ rfl

theorem playerBranch_jumping_state (env : Env) (res : Resources) (cd : ℚ)
    (obj : GameObject) (bullets : List GameObject) (dt : ℚ)
    (hs : playerStateOf obj = PlayerState.jumping) :
    playerStateOf (playerBranch env res cd obj bullets dt).1 =
      PlayerState.jumping := by
  have h1 : playerStateOf (stepWeaponTimer obj dt) = PlayerState.jumping := by
    rw [stepWeaponTimer_state]; exact hs
  simp only [playerBranch, h1]
  rw [handleShooting_fst_state, h1]

theorem collisionResponse_player_data (res : Resources) (rc : FRect)
    (a b : GameObject) (hp : a.type = ObjectType.player) :
    (collisionResponse res rc a b).data = a.data := by
  unfold collisionResponse
  rw [if_pos hp]
  split <;> simp

theorem checkCollisions_player_data (res : Resources) (a b : GameObject)
    (hp : a.type = ObjectType.player) :
    (checkCollisions res a b).data = a.data := by
  unfold checkCollisions
  split
  · exact collisionResponse_player_data res _ a b hp
  · rfl

theorem collideFold_player_data (res : Resources) :
    ∀ (others : List GameObject) (o : GameObject) (fg : Bool),
      o.type = ObjectType.player →
      (List.foldl (collideStep res) (o, fg) others).1.data = o.data := by
  intro others
  induction others with
  | nil => intro o fg _; rfl
  | cons b rest ih =>
      intro o fg hp
      rw [List.foldl_cons]
      have h1 : (collideStep res (o, fg) b).1 = checkCollisions res o b := rfl
      have htype : (collideStep res (o, fg) b).1.type = ObjectType.player := by
        rw [h1, checkCollisions_type]; exact hp
      have hrec := ih (collideStep res (o, fg) b).1 (collideStep res (o, fg) b).2 htype
      rw [hrec, h1]
      exact checkCollisions_player_data res o b hp

theorem updatePreCollide_player_data (env : Env) (res : Resources)
    (obj : GameObject) (bullets : List GameObject) (dt : ℚ)
    (hp : obj.type = ObjectType.player) :
    (updatePreCollide env res obj bullets dt).1.data =
      (playerBranch env res (currentDirectionOf env (applyGravity obj dt))
        (applyGravity obj dt) bullets dt).1.data := by
  have hgt : (applyGravity obj dt).type = ObjectType.player := by
    rw [applyGravity_type]; exact hp
  simp only [updatePreCollide, hgt, if_pos, integratePosition_data,
    integrateVelocity_data]
  split <;> rfl

/-- C4: over one full update step of a player that starts ungrounded, a true
    ground-sensor result at the collision phase makes grounded true and
    resets the state machine to idle (whatever state it was in, since no
    hypothesis constrains it); without that ground edge a jumping player
    stays jumping, so this edge is the only exit from the jumping state
    inside update; and the sensor accumulation ignores every object whose
    type is not level. -/
theorem ground_sensor_resets_player (env : Env) (res : Resources)
    (others bullets : List GameObject) (obj : GameObject) (dt : ℚ)
    (hp : obj.type = ObjectType.player) (hg : obj.grounded = false) :
    ((collidePhase res others
        (updatePreCollide env res obj bullets dt).1).2 = true →
      (update env res others obj bullets dt).1.grounded = true ∧
      playerStateOf (update env res others obj bullets dt).1 =
        PlayerState.idle) ∧
    (playerStateOf obj = PlayerState.jumping →
      (collidePhase res others
        (updatePreCollide env res obj bullets dt).1).2 = false →
      playerStateOf (update env res others obj bullets dt).1 =
        PlayerState.jumping) ∧
    (∀ o b : GameObject, b.type ≠ ObjectType.level →
      (collideStep res (o, false) b).2 = false) := by
  have hpt : (updatePreCollide env res obj bullets dt).1.type =
      ObjectType.player := by
    rw [updatePreCollide_type]; exact hp
  have hpg : (updatePreCollide env res obj bullets dt).1.grounded = false := by
    rw [updatePreCollide_grounded]; exact hg
  have hct : (collidePhase res others
      (updatePreCollide env res obj bullets dt).1).1.type = ObjectType.player := by
    rw [collidePhase_type]; exact hpt
  have hcg : (collidePhase res others
      (updatePreCollide env res obj bullets dt).1).1.grounded = false := by
    rw [collidePhase_grounded]; exact hpg
  refine ⟨?_, ?_, ?_⟩
  · intro hfg
    have hne : (collidePhase res others
        (updatePreCollide env res obj bullets dt).1).1.grounded ≠ true := by
      rw [hcg]; exact Bool.false_ne_true
    constructor
    · show (applyGrounded
          (collidePhase res others (updatePreCollide env res obj bullets dt).1).2
          (collidePhase res others (updatePreCollide env res obj bullets dt).1).1).grounded =
        true
      rw [hfg]
      unfold applyGrounded
      rw [if_pos hne, if_pos (And.intro rfl hct)]
      rw [setPlayerState_grounded]
    · show playerStateOf (applyGrounded
          (collidePhase res others (updatePreCollide env res obj bullets dt).1).2
          (collidePhase res others (updatePreCollide env res obj bullets dt).1).1) =
        PlayerState.idle
      rw [hfg]
      unfold applyGrounded
      rw [if_pos hne, if_pos (And.intro rfl hct)]
      rw [playerStateOf_set_idle]
  · intro hs hfg0
    have hga : playerStateOf (applyGravity obj dt) = PlayerState.jumping := by
      rw [playerStateOf_congr _ _ (applyGravity_data obj dt)]; exact hs
    have hpre : playerStateOf (updatePreCollide env res obj bullets dt).1 =
        PlayerState.jumping := by
      rw [playerStateOf_congr _ _
        (updatePreCollide_player_data env res obj bullets dt hp)]
      exact playerBranch_jumping_state env res _ _ bullets dt hga
    have hcdata : (collidePhase res others
        (updatePreCollide env res obj bullets dt).1).1.data =
        (updatePreCollide env res obj bullets dt).1.data :=
      collideFold_player_data res others _ false hpt
    have hcstate : playerStateOf (collidePhase res others
        (updatePreCollide env res obj bullets dt).1).1 = PlayerState.jumping := by
      rw [playerStateOf_congr _ _ hcdata]
      exact hpre
    show playerStateOf (applyGrounded
        (collidePhase res others (updatePreCollide env res obj bullets dt).1).2
        (collidePhase res others (updatePreCollide env res obj bullets dt).1).1) =
      PlayerState.jumping
    rw [hfg0]
    unfold applyGrounded
    rw [if_neg (by rw [hcg]; simp)]
    exact hcstate
  · intro o b hbl
    simp [collideStep, hbl]

theorem bulletStateOf_congr (a b : GameObject) (h : a.data = b.data) :
    bulletStateOf a = bulletStateOf b := by
  unfold bulletStateOf; rw [h]

@[simp] theorem setBulletState_data (obj : GameObject) (s : BulletState) :
    (setBulletState obj s).data = ObjectData.bullet s := rfl

@[simp] theorem bulletStateOf_setBulletState (obj : GameObject) (s : BulletState) :
    bulletStateOf (setBulletState obj s) = s := rfl

@[simp] theorem bulletStateOf_applyGravity (obj : GameObject) (dt : ℚ) :
    bulletStateOf (applyGravity obj dt) = bulletStateOf obj :=
  bulletStateOf_congr _ _ (applyGravity_data obj dt)

@[simp] theorem bulletOffscreen_applyGravity (env : Env) (obj : GameObject)
    (dt : ℚ) :
    bulletOffscreen env (applyGravity obj dt) = bulletOffscreen env obj := by
  unfold bulletOffscreen
  rw [applyGravity_position]

@[simp] theorem animIsDone_applyGravity (obj : GameObject) (dt : ℚ) :
    animIsDone (applyGravity obj dt) = animIsDone obj := by
  unfold animIsDone
  rw [applyGravity_animations, applyGravity_currentAnimation]

theorem bulletStep_applyGravity_data (env : Env) (obj : GameObject) (dt : ℚ) :
    (bulletStep env (applyGravity obj dt)).data = (bulletStep env obj).data := by
  unfold bulletStep
  rw [bulletStateOf_applyGravity]
  rcases hcase : bulletStateOf obj with _ | _ | _ <;>
    simp only [hcase, bulletOffscreen_applyGravity, animIsDone_applyGravity] <;>
    (try split) <;> simp

theorem collisionResponse_bullet_notmoving (res : Resources) (rc : FRect)
    (a b : GameObject) (ha : a.type = ObjectType.bullet)
    (hs : bulletStateOf a ≠ BulletState.moving) :
    collisionResponse res rc a b = a := by
  have hnp : ¬ a.type = ObjectType.player := by
    rw [ha]; intro hc; exact ObjectType.noConfusion hc
  unfold collisionResponse
  rw [if_neg hnp, if_pos ha]
  rcases hcase : bulletStateOf a with _ | _ | _
  · exact absurd hcase hs
  · simp only [hcase]
  · simp only [hcase]

theorem collisionResponse_bullet_moving_state (res : Resources) (rc : FRect)
    (a b : GameObject) (ha : a.type = ObjectType.bullet)
    (hs : bulletStateOf a = BulletState.moving) :
    bulletStateOf (collisionResponse res rc a b) = BulletState.colliding := by
  have hnp : ¬ a.type = ObjectType.player := by
    rw [ha]; intro hc; exact ObjectType.noConfusion hc
  unfold collisionResponse
  rw [if_neg hnp, if_pos ha]
  simp only [hs]
  rfl

theorem checkCollisions_bullet_notmoving (res : Resources) (a b : GameObject)
    (ha : a.type = ObjectType.bullet)
    (hs : bulletStateOf a ≠ BulletState.moving) :
    checkCollisions res a b = a := by
  unfold checkCollisions
  split
  · exact collisionResponse_bullet_notmoving res _ a b ha hs
  · rfl

theorem checkCollisions_bullet_state (res : Resources) (a b : GameObject)
    (ha : a.type = ObjectType.bullet) :
    bulletStateOf (checkCollisions res a b) = bulletStateOf a ∨
    bulletStateOf (checkCollisions res a b) = BulletState.colliding := by
  by_cases hs : bulletStateOf a = BulletState.moving
  · unfold checkCollisions
    split
    · right; exact collisionResponse_bullet_moving_state res _ a b ha hs
    · left; rfl
  · left
    rw [checkCollisions_bullet_notmoving res a b ha hs]

theorem collideFold_bullet_fixed (res : Resources) (s : BulletState)
    (hsn : s ≠ BulletState.moving) :
    ∀ (others : List GameObject) (o : GameObject) (fg : Bool),
      o.type = ObjectType.bullet → bulletStateOf o = s →
      (List.foldl (collideStep res) (o, fg) others).1 = o := by
  intro others
  induction others with
  | nil => intro o fg _ _; rfl
  | cons b rest ih =>
      intro o fg ht hs
      rw [List.foldl_cons]
      have hcs : (collideStep res (o, fg) b).1 = checkCollisions res o b := rfl
      have hid : (collideStep res (o, fg) b).1 = o := by
        rw [hcs]
        exact checkCollisions_bullet_notmoving res o b ht (by rw [hs]; exact hsn)
      have hrec := ih (collideStep res (o, fg) b).1 (collideStep res (o, fg) b).2
        (by rw [hid]; exact ht) (by rw [hid]; exact hs)
      rw [hrec, hid]

theorem collideFold_bullet_movcol (res : Resources) :
    ∀ (others : List GameObject) (o : GameObject) (fg : Bool),
      o.type = ObjectType.bullet →
      (bulletStateOf o = BulletState.moving ∨
        bulletStateOf o = BulletState.colliding) →
      (bulletStateOf (List.foldl (collideStep res) (o, fg) others).1 =
          BulletState.moving ∨
        bulletStateOf (List.foldl (collideStep res) (o, fg) others).1 =
          BulletState.colliding) := by
  intro others
  induction others with
  | nil => intro o fg _ hs; exact hs
  | cons b rest ih =>
      intro o fg ht hs
      rw [List.foldl_cons]
      apply ih
      · show (checkCollisions res o b).type = ObjectType.bullet
        rw [checkCollisions_type]; exact ht
      · show bulletStateOf (checkCollisions res o b) = BulletState.moving ∨
          bulletStateOf (checkCollisions res o b) = BulletState.colliding
        rcases checkCollisions_bullet_state res o b ht with h | h
        · rw [h]; exact hs
        · right; exact h

/-- C7: over one full update step, a bullet only moves along the allowed
    transitions: inactive is absorbing (only a spawn overwrite leaves it), a
    colliding bullet becomes inactive exactly when its impact animation is
    done, a moving bullet becomes inactive when it leaves the viewport, and
    an on-screen moving bullet either stays moving or becomes colliding (the
    latter only through the collision response). -/
theorem bullet_state_transitions (env : Env) (res : Resources)
    (others bullets : List GameObject) (obj : GameObject) (dt : ℚ)
    (hb : obj.type = ObjectType.bullet) :
    (bulletStateOf obj = BulletState.inactive →
      bulletStateOf (update env res others obj bullets dt).1 =
        BulletState.inactive) ∧
    (bulletStateOf obj = BulletState.colliding → animIsDone obj = true →
      bulletStateOf (update env res others obj bullets dt).1 =
        BulletState.inactive) ∧
    (bulletStateOf obj = BulletState.colliding → animIsDone obj = false →
      bulletStateOf (update env res others obj bullets dt).1 =
        BulletState.colliding) ∧
    (bulletStateOf obj = BulletState.moving → bulletOffscreen env obj = true →
      bulletStateOf (update env res others obj bullets dt).1 =
        BulletState.inactive) ∧
    (bulletStateOf obj = BulletState.moving → bulletOffscreen env obj = false →
      (bulletStateOf (update env res others obj bullets dt).1 =
          BulletState.moving ∨
        bulletStateOf (update env res others obj bullets dt).1 =
          BulletState.colliding)) := by
  have hpt : (updatePreCollide env res obj bullets dt).1.type =
      ObjectType.bullet := by
    rw [updatePreCollide_type]; exact hb
  have hct : (collidePhase res others
      (updatePreCollide env res obj bullets dt).1).1.type = ObjectType.bullet := by
    rw [collidePhase_type]; exact hpt
  have hnotpl : (collidePhase res others
      (updatePreCollide env res obj bullets dt).1).1.type ≠ ObjectType.player := by
    rw [hct]; intro hc; exact ObjectType.noConfusion hc
  have hdata : (updatePreCollide env res obj bullets dt).1.data =
      (bulletStep env (applyGravity obj dt)).data := by
    simp [updatePreCollide, hb, currentDirectionOf]
  have hdata2 : bulletStateOf (updatePreCollide env res obj bullets dt).1 =
      bulletStateOf (bulletStep env obj) :=
    (bulletStateOf_congr _ _ hdata).trans
      (bulletStateOf_congr _ _ (bulletStep_applyGravity_data env obj dt))
  have hag : bulletStateOf (update env res others obj bullets dt).1 =
      bulletStateOf (collidePhase res others
        (updatePreCollide env res obj bullets dt).1).1 :=
    bulletStateOf_congr _ _ (applyGrounded_data_nonplayer _ _ hnotpl)
  have hfinal : ∀ s : BulletState, s ≠ BulletState.moving →
      bulletStateOf (bulletStep env obj) = s →
      bulletStateOf (update env res others obj bullets dt).1 = s := by
    intro s hsn hs
    rw [hag]
    have hfold : (collidePhase res others
        (updatePreCollide env res obj bullets dt).1).1 =
        (updatePreCollide env res obj bullets dt).1 :=
      collideFold_bullet_fixed res s hsn others _ false hpt (hdata2.trans hs)
    rw [hfold, hdata2]
    exact hs
  refine ⟨?_, ?_, ?_, ?_, ?_⟩
  · intro hs
    refine hfinal BulletState.inactive (by intro hc; exact BulletState.noConfusion hc) ?_
    simp [bulletStep, hs]
  · intro hs hdone
    refine hfinal BulletState.inactive (by intro hc; exact BulletState.noConfusion hc) ?_
    simp [bulletStep, hs, hdone]
  · intro hs hdone
    refine hfinal BulletState.colliding (by intro hc; exact BulletState.noConfusion hc) ?_
    simp [bulletStep, hs, hdone]
  · intro hs hoff
    refine hfinal BulletState.inactive (by intro hc; exact BulletState.noConfusion hc) ?_
    simp [bulletStep, hs, hoff]
  · intro hs hoff
    have hstep : bulletStateOf (bulletStep env obj) = BulletState.moving := by
      simp [bulletStep, hs, hoff]
    rw [hag]
    exact collideFold_bullet_movcol res others _ false hpt
      (Or.inl (hdata2.trans hstep))

/-- Witness for C7: the concrete inactive pooled bullet stays inactive over a
    full update step. -/
theorem bullet_state_transitions_witness :
    bulletStateOf (update sampleEnv sampleRes [] inactiveBullet [] 0).1 =
      BulletState.inactive :=
  (bullet_state_transitions sampleEnv sampleRes [] [] inactiveBullet 0 rfl).1 rfl

/-- Witness for C4: the concrete resting player above the ground tile becomes
    grounded and idle over one update step. -/
theorem ground_sensor_resets_player_witness :
    (update sampleEnv sampleRes [groundTile] restingPlayer [] 0).1.grounded = true ∧
    playerStateOf (update sampleEnv sampleRes [groundTile] restingPlayer [] 0).1 =
      PlayerState.idle :=
  (ground_sensor_resets_player sampleEnv sampleRes [groundTile] [] restingPlayer
      0 rfl rfl).1 (by
    norm_num [collidePhase, collideStep, checkCollisions, collisionResponse,
      genericResponse, getRectIntersection, FRect.isEmptyRect, objRect,
      sensorRect, updatePreCollide, applyGravity, currentDirectionOf,
      playerBranch, handleShooting, stepWeaponTimer, decelerate,
      setPlayerState, playerStateOf, weaponTimerOf, resetWeaponTimer,
      Timer.step, Timer.isTimeout, integrateVelocity, integratePosition,
      bulletStep, restingPlayer, playerInit, playerDataInit, createObject,
      GameObject.init, groundTile, sampleEnv, sampleRes, sampleTex,
      TILE_SIZE, ANIM_PLAYER_IDLE, max_def, min_def])

end Demo
